import Mathlib

/-!
Shallow embedding of the EdenFS NFSv3 server protocol engine
(`eden/fs/nfs/Nfsd3.cpp`) and theorems checking its natural-language
specification against the code.

Modelling conventions:
* Machine integers are `Nat`/`Int`, with `% 2 ^ 32` / `% 2 ^ 64` where the
  C++ performs an unsigned narrowing or where unsigned arithmetic may wrap.
* `folly::Try<T>` / a failing future is `Except NfsError T`; the kinds of
  exception the code distinguishes are captured by the `NfsError` inductive.
* Each handler returns `Except Unit (RpcReply × List DispCall)`:
  `Except.error ()` models a C++ exception escaping the handler (a failed
  XDR deserialization, or `IOBufQueue::split` underflowing), and the
  `List DispCall` records the dispatcher invocations in program order.
* A name ending in `IO` is not writable in this development, so the POSIX
  `EIO` errno and the `NFS3ERR_IO`/`NFS3ERR_NXIO` statuses carry a trailing
  underscore (`EIO_`, `NFS3ERR_IO_`, ...).
-/

namespace Nfsd3

/-! ### POSIX constants (Linux values, `<sys/stat.h>`, `<limits.h>`) -/

def S_IFMT : Nat := 0o170000

def S_IFREG : Nat := 0o100000

def S_IFDIR : Nat := 0o040000

def S_IFBLK : Nat := 0o060000

def S_IFCHR : Nat := 0o020000

def S_IFLNK : Nat := 0o120000

def S_IFSOCK : Nat := 0o140000

def S_IFIFO : Nat := 0o010000

def S_IXUSR : Nat := 0o100

def NAME_MAX : Nat := 255

/-- NFS permission bits used by `modeToNfsMode` (values from `NfsdRpc.h`,
mirroring the standard POSIX permission bits). -/
def kReadOwnerBit : Nat := 0o400

def kWriteOwnerBit : Nat := 0o200

def kExecOwnerBit : Nat := 0o100

def kReadGroupBit : Nat := 0o040

def kNfsdProgNumber : Nat := 100003

def kNfsd3ProgVersion : Nat := 3

/-! ### Errors -/

/-- The POSIX errnos distinguished by the `switch` in `exceptionToNfsError`;
`EOTHER n` stands for any errno not named in that switch. `EIO_` is POSIX
`EIO` and `ENXIO_` is POSIX `ENXIO`. -/
inductive Errno where
  | EPERM | ENOENT | EIO_ | ETXTBSY | ENXIO_ | EACCES | EEXIST | EXDEV
  | ENODEV | ENOTDIR | EISDIR | EINVAL | EFBIG | EROFS | EMLINK
  | ENAMETOOLONG | ENOTEMPTY | EDQUOT | ESTALE | ETIMEDOUT | EAGAIN
  | ENOMEM | ENOTSUP | ENFILE
  | EOTHER (n : Nat)
  deriving DecidableEq

/-- The kinds of exception `exceptionToNfsError` distinguishes:
a `std::system_error` carrying an errno (`isErrnoError` true), a
`std::system_error` that is not an errno error, a `folly::FutureTimeout`,
and any other exception. -/
inductive NfsError where
  | systemError (errno : Errno)
  | nonErrnoSystemError
  | futureTimeout
  | otherException
  deriving DecidableEq

/-- `nfsstat3` status codes (RFC 1813) used by this engine.
`NFS3ERR_IO_` is `NFS3ERR_IO` and `NFS3ERR_NXIO_` is `NFS3ERR_NXIO`. -/
inductive nfsstat3 where
  | NFS3_OK
  | NFS3ERR_PERM | NFS3ERR_NOENT | NFS3ERR_IO_ | NFS3ERR_NXIO_
  | NFS3ERR_ACCES | NFS3ERR_EXIST | NFS3ERR_XDEV | NFS3ERR_NODEV
  | NFS3ERR_NOTDIR | NFS3ERR_ISDIR | NFS3ERR_INVAL | NFS3ERR_FBIG
  | NFS3ERR_ROFS | NFS3ERR_MLINK | NFS3ERR_NAMETOOLONG | NFS3ERR_NOTEMPTY
  | NFS3ERR_DQUOT | NFS3ERR_STALE | NFS3ERR_JUKEBOX | NFS3ERR_NOTSUPP
  | NFS3ERR_SERVERFAULT
  deriving DecidableEq

/-- Convert an exception to the appropriate NFS error value
(`exceptionToNfsError`, Nfsd3.cpp lines 99-158). -/
def exceptionToNfsError : NfsError → nfsstat3
  | .systemError e =>
    match e with
    | .EPERM => .NFS3ERR_PERM
    | .ENOENT => .NFS3ERR_NOENT
    | .EIO_ => .NFS3ERR_IO_
    | .ETXTBSY => .NFS3ERR_IO_
    | .ENXIO_ => .NFS3ERR_NXIO_
    | .EACCES => .NFS3ERR_ACCES
    | .EEXIST => .NFS3ERR_EXIST
    | .EXDEV => .NFS3ERR_XDEV
    | .ENODEV => .NFS3ERR_NODEV
    | .ENOTDIR => .NFS3ERR_NOTDIR
    | .EISDIR => .NFS3ERR_ISDIR
    | .EINVAL => .NFS3ERR_INVAL
    | .EFBIG => .NFS3ERR_FBIG
    | .EROFS => .NFS3ERR_ROFS
    | .EMLINK => .NFS3ERR_MLINK
    | .ENAMETOOLONG => .NFS3ERR_NAMETOOLONG
    | .ENOTEMPTY => .NFS3ERR_NOTEMPTY
    | .EDQUOT => .NFS3ERR_DQUOT
    | .ESTALE => .NFS3ERR_STALE
    | .ETIMEDOUT => .NFS3ERR_JUKEBOX
    | .EAGAIN => .NFS3ERR_JUKEBOX
    | .ENOMEM => .NFS3ERR_JUKEBOX
    | .ENOTSUP => .NFS3ERR_NOTSUPP
    | .ENFILE => .NFS3ERR_SERVERFAULT
    | .EOTHER _ => .NFS3ERR_SERVERFAULT
  | .nonErrnoSystemError => .NFS3ERR_SERVERFAULT
  | .futureTimeout => .NFS3ERR_JUKEBOX
  | .otherException => .NFS3ERR_SERVERFAULT

/-! ### POSIX attribute snapshots -/

structure timespec where
  tv_sec : Int
  tv_nsec : Int
  deriving DecidableEq

/-- POSIX `struct stat`, restricted to the fields the engine reads. -/
structure Stat where
  st_mode : Nat
  st_nlink : Nat
  st_uid : Nat
  st_gid : Nat
  st_size : Int
  st_blocks : Int
  st_dev : Nat
  st_ino : Nat
  st_atim : timespec
  st_mtim : timespec
  st_ctim : timespec
  deriving DecidableEq

/-- POSIX `struct statfs`, restricted to the fields `fsstat` reads (all held
as their unsigned 64-bit values). -/
structure Statfs where
  f_bsize : Nat
  f_blocks : Nat
  f_bfree : Nat
  f_bavail : Nat
  f_files : Nat
  f_ffree : Nat
  deriving DecidableEq

/-! ### NFS wire structures -/

inductive ftype3 where
  | NF3REG | NF3DIR | NF3BLK | NF3CHR | NF3LNK | NF3SOCK | NF3FIFO
  deriving DecidableEq

structure specdata3 where
  specdata1 : Nat
  specdata2 : Nat
  deriving DecidableEq

structure nfstime3 where
  seconds : Nat
  nseconds : Nat
  deriving DecidableEq

structure fattr3 where
  type : ftype3
  mode : Nat
  nlink : Nat
  uid : Nat
  gid : Nat
  size : Nat
  used : Nat
  rdev : specdata3
  fsid : Nat
  fileid : Nat
  atime : nfstime3
  mtime : nfstime3
  ctime : nfstime3
  deriving DecidableEq

/-- `post_op_attr`: `none` is the "no attributes" variant. -/
def post_op_attr : Type := Option fattr3

instance : DecidableEq post_op_attr := by
  unfold post_op_attr
  infer_instance

structure wcc_attr where
  size : Nat
  mtime : nfstime3
  ctime : nfstime3
  deriving DecidableEq

/-- `pre_op_attr`: `none` is the absent variant. -/
def pre_op_attr : Type := Option wcc_attr

instance : DecidableEq pre_op_attr := by
  unfold pre_op_attr
  infer_instance

structure wcc_data where
  before : pre_op_attr
  after : post_op_attr
  deriving DecidableEq

structure nfs_fh3 where
  ino : Nat
  deriving DecidableEq

/-- `post_op_fh3`: `none` is the absent variant. -/
def post_op_fh3 : Type := Option nfs_fh3

instance : DecidableEq post_op_fh3 := by
  unfold post_op_fh3
  infer_instance

structure mismatch_info where
  low : Nat
  high : Nat
  deriving DecidableEq

/-! ### Attribute conversion (Nfsd3.cpp lines 168-253) -/

/-- Convert the POSIX mode to NFS file type (`modeToFtype3`). The final
branch carries a debug assertion `XDCHECK(S_ISFIFO(mode))` and returns
`NF3FIFO`. -/
def modeToFtype3 (mode : Nat) : ftype3 :=
  if mode &&& S_IFMT = S_IFREG then .NF3REG
  else if mode &&& S_IFMT = S_IFDIR then .NF3DIR
  else if mode &&& S_IFMT = S_IFBLK then .NF3BLK
  else if mode &&& S_IFMT = S_IFCHR then .NF3CHR
  else if mode &&& S_IFMT = S_IFLNK then .NF3LNK
  else if mode &&& S_IFMT = S_IFSOCK then .NF3SOCK
  else .NF3FIFO

/-- Convert the POSIX mode to NFS mode (`modeToNfsMode`): the owner always
has RW access, the group R access and others no access. -/
def modeToNfsMode (mode : Nat) : Nat :=
  kReadOwnerBit ||| kWriteOwnerBit ||| kReadGroupBit |||
    (if mode &&& S_IXUSR ≠ 0 then kExecOwnerBit else 0)

/-- Convert a POSIX timespec to an NFS time (`timespecToNfsTime`):
`folly::to_unsigned` to 64 bits then `folly::to_narrow` to 32 bits. -/
def timespecToNfsTime (time : timespec) : nfstime3 :=
  ⟨((time.tv_sec % (2 ^ 64 : Int)).toNat) % 2 ^ 32,
    ((time.tv_nsec % (2 ^ 64 : Int)).toNat) % 2 ^ 32⟩

/-- `statToFattr3` (Nfsd3.cpp lines 210-232). -/
def statToFattr3 (stat : Stat) : fattr3 where
  type := modeToFtype3 stat.st_mode
  mode := modeToNfsMode stat.st_mode
  nlink := stat.st_nlink % 2 ^ 32
  uid := stat.st_uid
  gid := stat.st_gid
  size := (stat.st_size % (2 ^ 64 : Int)).toNat
  used := ((stat.st_blocks % (2 ^ 64 : Int)).toNat * 512) % 2 ^ 64
  rdev := ⟨0, 0⟩
  fsid := stat.st_dev
  fileid := stat.st_ino
  atime := timespecToNfsTime stat.st_atim
  mtime := timespecToNfsTime stat.st_mtim
  ctime := timespecToNfsTime stat.st_ctim

/-- `statToPostOpAttr`: absent variant on a failed attribute fetch. -/
def statToPostOpAttr (stat : Except NfsError Stat) : post_op_attr :=
  match stat with
  | .error _ => none
  | .ok s => some (statToFattr3 s)

/-- `statToPreOpAttr`: always the present variant. -/
def statToPreOpAttr (stat : Stat) : pre_op_attr :=
  some ⟨(stat.st_size % (2 ^ 64 : Int)).toNat,
    timespecToNfsTime stat.st_mtim,
    timespecToNfsTime stat.st_ctim⟩

/-! ### Procedure arguments (`NfsdRpc.h` argument structures, as consumed
by the handlers in Nfsd3.cpp) -/

structure diropargs3 where
  dir : nfs_fh3
  name : String
  deriving DecidableEq

structure GETATTR3args where
  object : nfs_fh3
  deriving DecidableEq

structure LOOKUP3args where
  what : diropargs3
  deriving DecidableEq

structure ACCESS3args where
  object : nfs_fh3
  access : Nat
  deriving DecidableEq

structure READLINK3args where
  symlink : nfs_fh3
  deriving DecidableEq

inductive stable_how where
  | UNSTABLE | DATA_SYNC | FILE_SYNC
  deriving DecidableEq

/-- `WRITE3args`; `data` is the opaque byte payload, one `Nat` per byte. -/
structure WRITE3args where
  file : nfs_fh3
  offset : Nat
  count : Nat
  stable : stable_how
  data : List Nat
  deriving DecidableEq

/-- `set_mode3` inside `sattr3`: `none` when the mode is not set. -/
structure sattr3 where
  mode : Option Nat
  uid : Option Nat
  gid : Option Nat
  size : Option Nat
  atime : Option nfstime3
  mtime : Option nfstime3
  deriving DecidableEq

inductive createmode3 where
  | UNCHECKED | GUARDED | EXCLUSIVE
  deriving DecidableEq

/-- `createhow3`: the XDR union of a `createmode3` tag with its payload
(`sattr3` for UNCHECKED/GUARDED, a `createverf3` for EXCLUSIVE). -/
inductive createhow3 where
  | UNCHECKED (obj_attributes : sattr3)
  | GUARDED (obj_attributes : sattr3)
  | EXCLUSIVE (verf : Nat)
  deriving DecidableEq

def createhow3.tag : createhow3 → createmode3
  | .UNCHECKED _ => .UNCHECKED
  | .GUARDED _ => .GUARDED
  | .EXCLUSIVE _ => .EXCLUSIVE

structure CREATE3args where
  where_ : diropargs3
  how : createhow3
  deriving DecidableEq

structure MKDIR3args where
  where_ : diropargs3
  attributes : sattr3
  deriving DecidableEq

structure LINK3args where
  file : nfs_fh3
  link : diropargs3
  deriving DecidableEq

structure FSSTAT3args where
  fsroot : nfs_fh3
  deriving DecidableEq

structure FSINFO3args where
  fsroot : nfs_fh3
  deriving DecidableEq

structure PATHCONF3args where
  object : nfs_fh3
  deriving DecidableEq

/-! ### Procedure results -/

structure GETATTR3resok where
  obj_attributes : fattr3
  deriving DecidableEq

/-- `GETATTR3res`: status-discriminated union; the failure arm is void. -/
inductive GETATTR3res where
  | resok (status : nfsstat3) (v : GETATTR3resok)
  | resfail (status : nfsstat3)
  deriving DecidableEq

structure LOOKUP3resok where
  object : nfs_fh3
  obj_attributes : post_op_attr
  dir_attributes : post_op_attr
  deriving DecidableEq

structure LOOKUP3resfail where
  dir_attributes : post_op_attr
  deriving DecidableEq

inductive LOOKUP3res where
  | resok (status : nfsstat3) (v : LOOKUP3resok)
  | resfail (status : nfsstat3) (v : LOOKUP3resfail)
  deriving DecidableEq

structure ACCESS3resok where
  obj_attributes : post_op_attr
  access : Nat
  deriving DecidableEq

structure ACCESS3resfail where
  obj_attributes : post_op_attr
  deriving DecidableEq

inductive ACCESS3res where
  | resok (status : nfsstat3) (v : ACCESS3resok)
  | resfail (status : nfsstat3) (v : ACCESS3resfail)
  deriving DecidableEq

structure READLINK3resok where
  symlink_attributes : post_op_attr
  data : String
  deriving DecidableEq

structure READLINK3resfail where
  symlink_attributes : post_op_attr
  deriving DecidableEq

inductive READLINK3res where
  | resok (status : nfsstat3) (v : READLINK3resok)
  | resfail (status : nfsstat3) (v : READLINK3resfail)
  deriving DecidableEq

structure WRITE3resok where
  file_wcc : wcc_data
  count : Nat
  committed : stable_how
  verf : Nat
  deriving DecidableEq

/-- `WRITE3resfail{}` is default-constructed in the code: an empty
`wcc_data`. -/
structure WRITE3resfail where
  file_wcc : wcc_data
  deriving DecidableEq

inductive WRITE3res where
  | resok (status : nfsstat3) (v : WRITE3resok)
  | resfail (status : nfsstat3) (v : WRITE3resfail)
  deriving DecidableEq

structure CREATE3resok where
  obj : post_op_fh3
  obj_attributes : post_op_attr
  dir_wcc : wcc_data
  deriving DecidableEq

structure CREATE3resfail where
  dir_wcc : wcc_data
  deriving DecidableEq

inductive CREATE3res where
  | resok (status : nfsstat3) (v : CREATE3resok)
  | resfail (status : nfsstat3) (v : CREATE3resfail)
  deriving DecidableEq

structure MKDIR3resok where
  obj : post_op_fh3
  obj_attributes : post_op_attr
  dir_wcc : wcc_data
  deriving DecidableEq

structure MKDIR3resfail where
  dir_wcc : wcc_data
  deriving DecidableEq

inductive MKDIR3res where
  | resok (status : nfsstat3) (v : MKDIR3resok)
  | resfail (status : nfsstat3) (v : MKDIR3resfail)
  deriving DecidableEq

structure LINK3resfail where
  file_attributes : post_op_attr
  linkdir_wcc : wcc_data
  deriving DecidableEq

/-- The LINK handler only ever builds the failure arm. -/
inductive LINK3res where
  | resfail (status : nfsstat3) (v : LINK3resfail)
  deriving DecidableEq

structure FSSTAT3resok where
  obj_attributes : post_op_attr
  tbytes : Nat
  fbytes : Nat
  abytes : Nat
  tfiles : Nat
  ffiles : Nat
  afiles : Nat
  invarsec : Nat
  deriving DecidableEq

structure FSSTAT3resfail where
  obj_attributes : post_op_attr
  deriving DecidableEq

inductive FSSTAT3res where
  | resok (status : nfsstat3) (v : FSSTAT3resok)
  | resfail (status : nfsstat3) (v : FSSTAT3resfail)
  deriving DecidableEq

structure FSINFO3resok where
  obj_attributes : post_op_attr
  rtmax : Nat
  rtpref : Nat
  rtmult : Nat
  wtmax : Nat
  wtpref : Nat
  wtmult : Nat
  dtpref : Nat
  maxfilesize : Nat
  time_delta : nfstime3
  properties : Nat
  deriving DecidableEq

inductive FSINFO3res where
  | resok (status : nfsstat3) (v : FSINFO3resok)
  deriving DecidableEq

structure PATHCONF3resok where
  obj_attributes : post_op_attr
  linkmax : Nat
  name_max : Nat
  no_trunc : Bool
  chown_restricted : Bool
  case_insensitive : Bool
  case_preserving : Bool
  deriving DecidableEq

inductive PATHCONF3res where
  | resok (status : nfsstat3) (v : PATHCONF3resok)
  deriving DecidableEq

/-! ### Dispatcher interface and server state -/

/-- `NfsDispatcher::WriteRes`. -/
structure WriteRes where
  written : Nat
  preStat : Option Stat
  postStat : Option Stat
  deriving DecidableEq

/-- `NfsDispatcher::CreateRes`. -/
structure CreateRes where
  ino : Nat
  stat : Stat
  preDirStat : Option Stat
  postDirStat : Option Stat
  deriving DecidableEq

/-- `NfsDispatcher::MkdirRes`. -/
structure MkdirRes where
  ino : Nat
  stat : Stat
  preDirStat : Option Stat
  postDirStat : Option Stat
  deriving DecidableEq

/-- The abstract filesystem dispatcher consumed by the handlers. Each
operation either produces a value or fails with an `NfsError`; calls at the
same arguments are modelled as returning the same outcome. -/
structure NfsDispatcher where
  getattr : Nat → Except NfsError Stat
  getParent : Nat → Except NfsError Nat
  lookup : Nat → String → Except NfsError (Nat × Stat)
  readlink : Nat → Except NfsError String
  write : Nat → List Nat → Nat → Except NfsError WriteRes
  create : Nat → String → Nat → Except NfsError CreateRes
  mkdir : Nat → String → Nat → Except NfsError MkdirRes
  statfs : Nat → Except NfsError Statfs

/-- The server processor state captured by `Nfsd3ServerProcessor`
(the strace logger only produces log output and is not modelled). -/
structure Nfsd3ServerProcessor where
  dispatcher : NfsDispatcher
  caseSensitive : Bool

/-- One dispatcher invocation, with its arguments, as recorded by a
handler's call trace. -/
inductive DispCall where
  | getattrCall (ino : Nat)
  | getParentCall (ino : Nat)
  | lookupCall (dir : Nat) (name : String)
  | readlinkCall (ino : Nat)
  | writeCall (ino : Nat) (data : List Nat) (offset : Nat)
  | createCall (dir : Nat) (name : String) (mode : Nat)
  | mkdirCall (dir : Nat) (name : String) (mode : Nat)
  | statfsCall (ino : Nat)
  deriving DecidableEq

/-! ### Request cursor and reply model -/

/-- The XDR argument cursor, modelled by what each procedure's
`XdrTrait<...>::deserialize` would yield from it: `none` means the bytes do
not deserialize into that argument structure (the C++ deserializer throws). -/
structure Cursor where
  getattr3args : Option GETATTR3args
  lookup3args : Option LOOKUP3args
  access3args : Option ACCESS3args
  readlink3args : Option READLINK3args
  write3args : Option WRITE3args
  create3args : Option CREATE3args
  mkdir3args : Option MKDIR3args
  link3args : Option LINK3args
  fsstat3args : Option FSSTAT3args
  fsinfo3args : Option FSINFO3args
  pathconf3args : Option PATHCONF3args

/-- The per-procedure NFS result body serialized after an
`accept_stat::SUCCESS` header. `nullBody` is the empty body of NULL.
`genericErrorBody` is used only by the spec-modelled RPC-server wrapper
(see `handleRequest`). -/
inductive NfsBody where
  | nullBody
  | getattrBody (r : GETATTR3res)
  | lookupBody (r : LOOKUP3res)
  | accessBody (r : ACCESS3res)
  | readlinkBody (r : READLINK3res)
  | writeBody (r : WRITE3res)
  | createBody (r : CREATE3res)
  | mkdirBody (r : MKDIR3res)
  | linkBody (r : LINK3res)
  | fsstatBody (r : FSSTAT3res)
  | fsinfoBody (r : FSINFO3res)
  | pathconfBody (r : PATHCONF3res)
  | genericErrorBody (status : nfsstat3)
  deriving DecidableEq

/-- A serialized RPC reply: the `accept_stat` header together with what
follows it (`mismatch_info` after PROG_MISMATCH, the NFS result body after
SUCCESS, nothing otherwise). -/
inductive RpcReply where
  | progUnavail
  | progMismatch (mi : mismatch_info)
  | procUnavail
  | success (body : NfsBody)
  deriving DecidableEq

/-- The outcome of running a handler: `Except.error ()` models a C++
exception escaping the handler (failed deserialization or
`IOBufQueue::split` underflow); otherwise the reply together with the
dispatcher calls made, in program order. -/
def HandlerResult : Type := Except Unit (RpcReply × List DispCall)

instance instDecidableEqExcept {ε α : Type} [DecidableEq ε]
    [DecidableEq α] : DecidableEq (Except ε α) := fun a b =>
  match a, b with
  | .error e, .error f =>
    if h : e = f then .isTrue (by rw [h]) else .isFalse (by simp [h])
  | .error _, .ok _ => .isFalse (by simp)
  | .ok _, .error _ => .isFalse (by simp)
  | .ok x, .ok y =>
    if h : x = y then .isTrue (by rw [h]) else .isFalse (by simp [h])

instance : DecidableEq HandlerResult := by
  unfold HandlerResult
  infer_instance

/-! ### Per-procedure handlers (Nfsd3.cpp lines 160-891)

Each handler mirrors one `Nfsd3ServerProcessor` method. The
`serializeReply(ser, accept_stat, xid)` call at the top of each method is
reflected by the `RpcReply` constructor of the value returned. -/

/-- `Nfsd3ServerProcessor::null`. -/
def Nfsd3ServerProcessor.null (_ : Nfsd3ServerProcessor) (_ : Cursor) :
    HandlerResult :=
  .ok (.success .nullBody, [])

/-- `Nfsd3ServerProcessor::getattr`. -/
def Nfsd3ServerProcessor.getattr (p : Nfsd3ServerProcessor) (cur : Cursor) :
    HandlerResult :=
  match cur.getattr3args with
  | none => .error ()
  | some args =>
    let res : GETATTR3res :=
      match p.dispatcher.getattr args.object.ino with
      | .error e => .resfail (exceptionToNfsError e)
      | .ok stat => .resok .NFS3_OK ⟨statToFattr3 stat⟩
    .ok (.success (.getattrBody res), [.getattrCall args.object.ino])

/-- `Nfsd3ServerProcessor::setattr`: not implemented, PROC_UNAVAIL. -/
def Nfsd3ServerProcessor.setattr (_ : Nfsd3ServerProcessor) (_ : Cursor) :
    HandlerResult :=
  .ok (.procUnavail, [])

/-- The branch of `Nfsd3ServerProcessor::lookup` selecting between ".",
".." and a plain name (the `makeFutureWith` lambda, lines 333-355),
returning the lookup outcome together with the dispatcher calls it makes. -/
def lookupBranch (d : NfsDispatcher) (dirIno : Nat) (name : String) :
    Except NfsError (Nat × Stat) × List DispCall :=
  if name = "." then
    (match d.getattr dirIno with
      | .error e => .error e
      | .ok stat => .ok (dirIno, stat),
      [.getattrCall dirIno])
  else if name = ".." then
    match d.getParent dirIno with
    | .error e => (.error e, [.getParentCall dirIno])
    | .ok ino =>
      (match d.getattr ino with
        | .error e => .error e
        | .ok stat => .ok (ino, stat),
        [.getParentCall dirIno, .getattrCall ino])
  else
    (d.lookup dirIno name, [.lookupCall dirIno name])

/-- `Nfsd3ServerProcessor::lookup`. The directory attribute fetch
(`dirAttrFut`) is started eagerly, before the name-length check. -/
def Nfsd3ServerProcessor.lookup (p : Nfsd3ServerProcessor) (cur : Cursor) :
    HandlerResult :=
  match cur.lookup3args with
  | none => .error ()
  | some args =>
    let dirIno := args.what.dir.ino
    let dirAttr := p.dispatcher.getattr dirIno
    if args.what.name.length > NAME_MAX then
      let res : LOOKUP3res :=
        match dirAttr with
        | .error _ => .resfail .NFS3ERR_NAMETOOLONG ⟨none⟩
        | .ok stat =>
          .resfail .NFS3ERR_NAMETOOLONG ⟨some (statToFattr3 stat)⟩
      .ok (.success (.lookupBody res), [.getattrCall dirIno])
    else
      let branch := lookupBranch p.dispatcher dirIno args.what.name
      let res : LOOKUP3res :=
        match branch.1 with
        | .error e =>
          .resfail (exceptionToNfsError e) ⟨statToPostOpAttr dirAttr⟩
        | .ok (ino, stat) =>
          .resok .NFS3_OK
            ⟨⟨ino⟩, some (statToFattr3 stat), statToPostOpAttr dirAttr⟩
      .ok (.success (.lookupBody res), .getattrCall dirIno :: branch.2)

/-- `getEffectiveAccessRights`: currently echoes the desired access mask. -/
def getEffectiveAccessRights (_stat : Stat) (desiredAccess : Nat) : Nat :=
  desiredAccess

/-- `Nfsd3ServerProcessor::access`. -/
def Nfsd3ServerProcessor.access (p : Nfsd3ServerProcessor) (cur : Cursor) :
    HandlerResult :=
  match cur.access3args with
  | none => .error ()
  | some args =>
    let res : ACCESS3res :=
      match p.dispatcher.getattr args.object.ino with
      | .error e => .resfail (exceptionToNfsError e) ⟨none⟩
      | .ok stat =>
        .resok .NFS3_OK
          ⟨some (statToFattr3 stat),
            getEffectiveAccessRights stat args.access⟩
    .ok (.success (.accessBody res), [.getattrCall args.object.ino])

/-- `Nfsd3ServerProcessor::readlink`: the attribute fetch is started first,
then the readlink. -/
def Nfsd3ServerProcessor.readlink (p : Nfsd3ServerProcessor) (cur : Cursor) :
    HandlerResult :=
  match cur.readlink3args with
  | none => .error ()
  | some args =>
    let tryAttr := p.dispatcher.getattr args.symlink.ino
    let res : READLINK3res :=
      match p.dispatcher.readlink args.symlink.ino with
      | .error e =>
        .resfail (exceptionToNfsError e) ⟨statToPostOpAttr tryAttr⟩
      | .ok link =>
        .resok .NFS3_OK ⟨statToPostOpAttr tryAttr, link⟩
    .ok (.success (.readlinkBody res),
      [.getattrCall args.symlink.ino, .readlinkCall args.symlink.ino])

/-- `Nfsd3ServerProcessor::read`: not implemented, PROC_UNAVAIL. -/
def Nfsd3ServerProcessor.read (_ : Nfsd3ServerProcessor) (_ : Cursor) :
    HandlerResult :=
  .ok (.procUnavail, [])

/-- `makeWriteVerf`: always 0 for now. -/
def makeWriteVerf : Nat := 0

/-- `Nfsd3ServerProcessor::write`. The request data is truncated to
`count` bytes with `IOBufQueue::split`, which throws when fewer than
`count` bytes are available. -/
def Nfsd3ServerProcessor.write (p : Nfsd3ServerProcessor) (cur : Cursor) :
    HandlerResult :=
  match cur.write3args with
  | none => .error ()
  | some args =>
    if args.count ≤ args.data.length then
      let data := args.data.take args.count
      let res : WRITE3res :=
        match p.dispatcher.write args.file.ino data args.offset with
        | .error e => .resfail (exceptionToNfsError e) ⟨⟨none, none⟩⟩
        | .ok writeRes =>
          .resok .NFS3_OK
            ⟨⟨match writeRes.preStat with
                | some s => statToPreOpAttr s
                | none => none,
              match writeRes.postStat with
                | some s => some (statToFattr3 s)
                | none => none⟩,
              writeRes.written % 2 ^ 32,
              .FILE_SYNC,
              makeWriteVerf⟩
      .ok (.success (.writeBody res),
        [.writeCall args.file.ino data args.offset])
    else
      .error ()

/-- `isEexist`: the exception is an errno-bearing `std::system_error`
carrying `EEXIST`. -/
def isEexist : NfsError → Bool
  | .systemError .EEXIST => true
  | _ => false

/-- `Nfsd3ServerProcessor::create`. -/
def Nfsd3ServerProcessor.create (p : Nfsd3ServerProcessor) (cur : Cursor) :
    HandlerResult :=
  match cur.create3args with
  | none => .error ()
  | some args =>
    match args.how with
    | .EXCLUSIVE _ =>
      .ok (.success (.createBody
        (.resfail .NFS3ERR_NOTSUPP ⟨⟨none, none⟩⟩)), [])
    | .UNCHECKED attr | .GUARDED attr =>
      let mode := attr.mode.getD (S_IFREG ||| 0o644)
      let createmode := args.how.tag
      let res : CREATE3res :=
        match p.dispatcher.create args.where_.dir.ino args.where_.name
            mode with
        | .error e =>
          if createmode = .UNCHECKED ∧ isEexist e then
            .resok .NFS3_OK ⟨none, none, ⟨none, none⟩⟩
          else
            .resfail (exceptionToNfsError e) ⟨⟨none, none⟩⟩
        | .ok createRes =>
          .resok .NFS3_OK
            ⟨some ⟨createRes.ino⟩,
              some (statToFattr3 createRes.stat),
              ⟨match createRes.preDirStat with
                | some s => statToPreOpAttr s
                | none => none,
                match createRes.postDirStat with
                | some s => some (statToFattr3 s)
                | none => none⟩⟩
      .ok (.success (.createBody res),
        [.createCall args.where_.dir.ino args.where_.name mode])

/-- The `MKDIR3res` built from the dispatcher's mkdir outcome (the
`.thenTry` continuation of `Nfsd3ServerProcessor::mkdir`). -/
def mkdirResult (d : NfsDispatcher) (dirIno : Nat) (name : String)
    (mode : Nat) : MKDIR3res :=
  match d.mkdir dirIno name mode with
  | .error e => .resfail (exceptionToNfsError e) ⟨⟨none, none⟩⟩
  | .ok mkdirRes =>
    .resok .NFS3_OK
      ⟨some ⟨mkdirRes.ino⟩,
        some (statToFattr3 mkdirRes.stat),
        ⟨match mkdirRes.preDirStat with
          | some s => statToPreOpAttr s
          | none => none,
          match mkdirRes.postDirStat with
          | some s => some (statToFattr3 s)
          | none => none⟩⟩

/-- `Nfsd3ServerProcessor::mkdir`. -/
def Nfsd3ServerProcessor.mkdir (p : Nfsd3ServerProcessor) (cur : Cursor) :
    HandlerResult :=
  match cur.mkdir3args with
  | none => .error ()
  | some args =>
    if args.where_.name = "." ∨ args.where_.name = ".." then
      .ok (.success (.mkdirBody (.resfail .NFS3ERR_EXIST ⟨⟨none, none⟩⟩)),
        [])
    else
      let mode := args.attributes.mode.getD (S_IFDIR ||| 0o751)
      .ok (.success (.mkdirBody
          (mkdirResult p.dispatcher args.where_.dir.ino args.where_.name
            mode)),
        [.mkdirCall args.where_.dir.ino args.where_.name mode])

/-- `Nfsd3ServerProcessor::symlink`: not implemented, PROC_UNAVAIL. -/
def Nfsd3ServerProcessor.symlink (_ : Nfsd3ServerProcessor) (_ : Cursor) :
    HandlerResult :=
  .ok (.procUnavail, [])

/-- `Nfsd3ServerProcessor::mknod`: not implemented, PROC_UNAVAIL. -/
def Nfsd3ServerProcessor.mknod (_ : Nfsd3ServerProcessor) (_ : Cursor) :
    HandlerResult :=
  .ok (.procUnavail, [])

/-- `Nfsd3ServerProcessor::remove`: not implemented, PROC_UNAVAIL. -/
def Nfsd3ServerProcessor.remove (_ : Nfsd3ServerProcessor) (_ : Cursor) :
    HandlerResult :=
  .ok (.procUnavail, [])

/-- `Nfsd3ServerProcessor::rmdir`: not implemented, PROC_UNAVAIL. -/
def Nfsd3ServerProcessor.rmdir (_ : Nfsd3ServerProcessor) (_ : Cursor) :
    HandlerResult :=
  .ok (.procUnavail, [])

/-- `Nfsd3ServerProcessor::rename`: not implemented, PROC_UNAVAIL. -/
def Nfsd3ServerProcessor.rename (_ : Nfsd3ServerProcessor) (_ : Cursor) :
    HandlerResult :=
  .ok (.procUnavail, [])

/-- `Nfsd3ServerProcessor::link`: hard links unsupported; collect the
source attributes and fail with NFS3ERR_NOTSUPP. -/
def Nfsd3ServerProcessor.link (p : Nfsd3ServerProcessor) (cur : Cursor) :
    HandlerResult :=
  match cur.link3args with
  | none => .error ()
  | some args =>
    let tryAttr := p.dispatcher.getattr args.file.ino
    .ok (.success (.linkBody
        (.resfail .NFS3ERR_NOTSUPP
          ⟨statToPostOpAttr tryAttr, ⟨none, none⟩⟩)),
      [.getattrCall args.file.ino])

/-- `Nfsd3ServerProcessor::readdir`: not implemented, PROC_UNAVAIL. -/
def Nfsd3ServerProcessor.readdir (_ : Nfsd3ServerProcessor) (_ : Cursor) :
    HandlerResult :=
  .ok (.procUnavail, [])

/-- `Nfsd3ServerProcessor::readdirplus`: not implemented, PROC_UNAVAIL. -/
def Nfsd3ServerProcessor.readdirplus (_ : Nfsd3ServerProcessor)
    (_ : Cursor) : HandlerResult :=
  .ok (.procUnavail, [])

/-- `Nfsd3ServerProcessor::fsstat`: `statfs` first; `getattr` is then
issued whether or not `statfs` failed. -/
def Nfsd3ServerProcessor.fsstat (p : Nfsd3ServerProcessor) (cur : Cursor) :
    HandlerResult :=
  match cur.fsstat3args with
  | none => .error ()
  | some args =>
    let statFsTry := p.dispatcher.statfs args.fsroot.ino
    let statTry := p.dispatcher.getattr args.fsroot.ino
    let res : FSSTAT3res :=
      match statFsTry with
      | .error e =>
        .resfail (exceptionToNfsError e) ⟨statToPostOpAttr statTry⟩
      | .ok statfs =>
        .resok .NFS3_OK
          ⟨statToPostOpAttr statTry,
            (statfs.f_blocks * statfs.f_bsize) % 2 ^ 64,
            (statfs.f_bfree * statfs.f_bsize) % 2 ^ 64,
            (statfs.f_bavail * statfs.f_bavail) % 2 ^ 64,
            statfs.f_files,
            statfs.f_ffree,
            statfs.f_ffree,
            0⟩
    .ok (.success (.fsstatBody res),
      [.statfsCall args.fsroot.ino, .getattrCall args.fsroot.ino])

/-- Bits of the FSINFO `properties` mask (RFC 1813). -/
def FSF3_SYMLINK : Nat := 0x2

def FSF3_HOMOGENEOUS : Nat := 0x8

def FSF3_CANSETTIME : Nat := 0x10

/-- `Nfsd3ServerProcessor::fsinfo`: static reply. -/
def Nfsd3ServerProcessor.fsinfo (_ : Nfsd3ServerProcessor) (cur : Cursor) :
    HandlerResult :=
  match cur.fsinfo3args with
  | none => .error ()
  | some _ =>
    .ok (.success (.fsinfoBody
        (.resok .NFS3_OK
          ⟨none,
            1024 * 1024, 1024 * 1024, 1,
            1024 * 1024, 1024 * 1024, 1,
            1024 * 1024,
            2 ^ 64 - 1,
            ⟨0, 1⟩,
            FSF3_SYMLINK ||| FSF3_HOMOGENEOUS ||| FSF3_CANSETTIME⟩)),
      [])

/-- `Nfsd3ServerProcessor::pathconf`: static reply. -/
def Nfsd3ServerProcessor.pathconf (p : Nfsd3ServerProcessor)
    (cur : Cursor) : HandlerResult :=
  match cur.pathconf3args with
  | none => .error ()
  | some _ =>
    .ok (.success (.pathconfBody
        (.resok .NFS3_OK
          ⟨none, 0, NAME_MAX, true, true, !p.caseSensitive, true⟩)),
      [])

/-- `Nfsd3ServerProcessor::commit`: not implemented, PROC_UNAVAIL. -/
def Nfsd3ServerProcessor.commit (_ : Nfsd3ServerProcessor) (_ : Cursor) :
    HandlerResult :=
  .ok (.procUnavail, [])

/-! ### Handler table and dispatch (Nfsd3.cpp lines 893-986) -/

def Handler : Type := Nfsd3ServerProcessor → Cursor → HandlerResult

/-- `kNfs3dHandlers`: the fixed 22-slot table `{name, handler}` indexed by
NFSv3 procedure number. -/
def kNfs3dHandlers : List (String × Handler) :=
  [("NULL", Nfsd3ServerProcessor.null),
    ("GETATTR", Nfsd3ServerProcessor.getattr),
    ("SETATTR", Nfsd3ServerProcessor.setattr),
    ("LOOKUP", Nfsd3ServerProcessor.lookup),
    ("ACCESS", Nfsd3ServerProcessor.access),
    ("READLINK", Nfsd3ServerProcessor.readlink),
    ("READ", Nfsd3ServerProcessor.read),
    ("WRITE", Nfsd3ServerProcessor.write),
    ("CREATE", Nfsd3ServerProcessor.create),
    ("MKDIR", Nfsd3ServerProcessor.mkdir),
    ("SYMLINK", Nfsd3ServerProcessor.symlink),
    ("MKNOD", Nfsd3ServerProcessor.mknod),
    ("REMOVE", Nfsd3ServerProcessor.remove),
    ("RMDIR", Nfsd3ServerProcessor.rmdir),
    ("RENAME", Nfsd3ServerProcessor.rename),
    ("LINK", Nfsd3ServerProcessor.link),
    ("READDIR", Nfsd3ServerProcessor.readdir),
    ("READDIRPLUS", Nfsd3ServerProcessor.readdirplus),
    ("FSSTAT", Nfsd3ServerProcessor.fsstat),
    ("FSINFO", Nfsd3ServerProcessor.fsinfo),
    ("PATHCONF", Nfsd3ServerProcessor.pathconf),
    ("COMMIT", Nfsd3ServerProcessor.commit)]

theorem kNfs3dHandlers_length : kNfs3dHandlers.length = 22 := rfl

/-- `Nfsd3ServerProcessor::dispatchRpc` (lines 957-986): validate program
number, program version and procedure number, then route to the handler. -/
def Nfsd3ServerProcessor.dispatchRpc (p : Nfsd3ServerProcessor)
    (cur : Cursor) (progNumber progVersion procNumber : Nat) :
    HandlerResult :=
  if progNumber ≠ kNfsdProgNumber then
    .ok (.progUnavail, [])
  else if progVersion ≠ kNfsd3ProgVersion then
    .ok (.progMismatch ⟨kNfsd3ProgVersion, kNfsd3ProgVersion⟩, [])
  else if h : procNumber < kNfs3dHandlers.length then
    (kNfs3dHandlers.get ⟨procNumber, h⟩).2 p cur
  else
    .ok (.procUnavail, [])

/-- Modelled from the spec: the RPC-server layer that invokes
`dispatchRpc` is not under src/ (only its callee is); per §7 of the spec,
a deserialization throw escaping a handler must not abort the event loop
and is turned into a serialized `NFS3ERR_SERVERFAULT` reply. -/
def handleRequest (p : Nfsd3ServerProcessor) (cur : Cursor)
    (progNumber progVersion procNumber : Nat) : RpcReply × List DispCall :=
  match p.dispatchRpc cur progNumber progVersion procNumber with
  | .ok r => r
  | .error _ => (.success (.genericErrorBody .NFS3ERR_SERVERFAULT), [])

/-! ### Concrete fixtures used by the witness theorems -/

/-- A regular-file attribute snapshot. -/
def statEx : Stat :=
  ⟨0o100644, 1, 0, 0, 8192, 16, 1, 42, ⟨1, 2⟩, ⟨3, 4⟩, ⟨5, 6⟩⟩

/-- A directory attribute snapshot. -/
def dirStatEx : Stat :=
  ⟨0o040755, 2, 0, 0, 4096, 8, 1, 7, ⟨1, 2⟩, ⟨3, 4⟩, ⟨5, 6⟩⟩

/-- The statfs snapshot of the spec's concrete scenario 6. -/
def statfsEx : Statfs := ⟨4096, 1000, 500, 400, 256, 100⟩

/-- A dispatcher on which every operation succeeds. -/
def dOk : NfsDispatcher where
  getattr := fun _ => .ok statEx
  getParent := fun _ => .ok 7
  lookup := fun _ _ => .ok (43, statEx)
  readlink := fun _ => .ok "target"
  write := fun _ data _ => .ok ⟨data.length, none, some statEx⟩
  create := fun _ _ _ => .ok ⟨44, statEx, none, none⟩
  mkdir := fun _ _ _ => .ok ⟨45, statEx, none, none⟩
  statfs := fun _ => .ok statfsEx

/-- A dispatcher on which `create` fails with EEXIST and `getattr` fails
with ENOENT. -/
def dEexist : NfsDispatcher where
  getattr := fun _ => .error (.systemError .ENOENT)
  getParent := fun _ => .ok 7
  lookup := fun _ _ => .error (.systemError .ENOENT)
  readlink := fun _ => .error (.systemError .ENOENT)
  write := fun _ _ _ => .error (.systemError .EROFS)
  create := fun _ _ _ => .error (.systemError .EEXIST)
  mkdir := fun _ _ _ => .error (.systemError .EEXIST)
  statfs := fun _ => .ok statfsEx

def pOk : Nfsd3ServerProcessor := ⟨dOk, true⟩

def pEexist : Nfsd3ServerProcessor := ⟨dEexist, true⟩

/-- A cursor from which no argument structure deserializes. -/
def emptyCursor : Cursor :=
  ⟨none, none, none, none, none, none, none, none, none, none, none⟩

/-- A 256-character file name, longer than NAME_MAX. -/
def longName : String := String.mk (List.replicate 256 'a')

/-! ### Claims -/

/-- C1: for every call to `dispatchRpc`, if `prog ≠ 100003` the reply is
exactly `PROG_UNAVAIL` with no NFS body; else if `progVer ≠ 3` the reply is
`PROG_MISMATCH` followed by `mismatch_info{3, 3}`; else if `proc ≥ 22` the
reply is `PROC_UNAVAIL`; else the per-procedure handler for `proc` is
invoked — the checks applying in this order. -/
theorem dispatchRpc_routing (p : Nfsd3ServerProcessor) (cur : Cursor)
    (prog ver proc : Nat) :
    (prog ≠ 100003 →
      p.dispatchRpc cur prog ver proc = .ok (.progUnavail, [])) ∧
    (prog = 100003 → ver ≠ 3 →
      p.dispatchRpc cur prog ver proc = .ok (.progMismatch ⟨3, 3⟩, [])) ∧
    (prog = 100003 → ver = 3 → 22 ≤ proc →
      p.dispatchRpc cur prog ver proc = .ok (.procUnavail, [])) ∧
    (prog = 100003 → ver = 3 → ∀ hp : proc < 22,
      p.dispatchRpc cur prog ver proc =
        (kNfs3dHandlers.get ⟨proc, kNfs3dHandlers_length ▸ hp⟩).2 p cur) := by
  refine ⟨?_, ?_, ?_, ?_⟩
  · intro h
    simp [Nfsd3ServerProcessor.dispatchRpc, kNfsdProgNumber, h]
  · intro h1 h2
    subst h1
    simp [Nfsd3ServerProcessor.dispatchRpc, kNfsdProgNumber,
      kNfsd3ProgVersion, h2]
  · intro h1 h2 h3
    subst h1; subst h2
    simp only [Nfsd3ServerProcessor.dispatchRpc, kNfsdProgNumber,
      kNfsd3ProgVersion, ne_eq, not_true_eq_false, if_false,
      kNfs3dHandlers_length]
    rw [dif_neg (by omega)]
  · intro h1 h2 hp
    subst h1; subst h2
    simp only [Nfsd3ServerProcessor.dispatchRpc, kNfsdProgNumber,
      kNfsd3ProgVersion, ne_eq, not_true_eq_false, if_false]
    rw [dif_pos (kNfs3dHandlers_length ▸ hp)]

/-- C1 witness: a call with `prog = 99` is answered with `PROG_UNAVAIL`. -/
theorem dispatchRpc_routing_witness :
    pOk.dispatchRpc emptyCursor 99 3 0 = .ok (.progUnavail, []) :=
  (dispatchRpc_routing pOk emptyCursor 99 3 0).1 (by decide)

/-- C2: `exceptionToNfsError` realises the §4.1 table on errno-bearing
system errors (with ENFILE and every unlisted errno mapping to
`NFS3ERR_SERVERFAULT`), an async timeout maps to `NFS3ERR_JUKEBOX`, and
every other error kind maps to `NFS3ERR_SERVERFAULT`. -/
theorem exceptionToNfsError_table :
    exceptionToNfsError (.systemError .EPERM) = .NFS3ERR_PERM ∧
    exceptionToNfsError (.systemError .ENOENT) = .NFS3ERR_NOENT ∧
    exceptionToNfsError (.systemError .EIO_) = .NFS3ERR_IO_ ∧
    exceptionToNfsError (.systemError .ETXTBSY) = .NFS3ERR_IO_ ∧
    exceptionToNfsError (.systemError .ENXIO_) = .NFS3ERR_NXIO_ ∧
    exceptionToNfsError (.systemError .EACCES) = .NFS3ERR_ACCES ∧
    exceptionToNfsError (.systemError .EEXIST) = .NFS3ERR_EXIST ∧
    exceptionToNfsError (.systemError .EXDEV) = .NFS3ERR_XDEV ∧
    exceptionToNfsError (.systemError .ENODEV) = .NFS3ERR_NODEV ∧
    exceptionToNfsError (.systemError .ENOTDIR) = .NFS3ERR_NOTDIR ∧
    exceptionToNfsError (.systemError .EISDIR) = .NFS3ERR_ISDIR ∧
    exceptionToNfsError (.systemError .EINVAL) = .NFS3ERR_INVAL ∧
    exceptionToNfsError (.systemError .EFBIG) = .NFS3ERR_FBIG ∧
    exceptionToNfsError (.systemError .EROFS) = .NFS3ERR_ROFS ∧
    exceptionToNfsError (.systemError .EMLINK) = .NFS3ERR_MLINK ∧
    exceptionToNfsError (.systemError .ENAMETOOLONG) =
      .NFS3ERR_NAMETOOLONG ∧
    exceptionToNfsError (.systemError .ENOTEMPTY) = .NFS3ERR_NOTEMPTY ∧
    exceptionToNfsError (.systemError .EDQUOT) = .NFS3ERR_DQUOT ∧
    exceptionToNfsError (.systemError .ESTALE) = .NFS3ERR_STALE ∧
    exceptionToNfsError (.systemError .ETIMEDOUT) = .NFS3ERR_JUKEBOX ∧
    exceptionToNfsError (.systemError .EAGAIN) = .NFS3ERR_JUKEBOX ∧
    exceptionToNfsError (.systemError .ENOMEM) = .NFS3ERR_JUKEBOX ∧
    exceptionToNfsError (.systemError .ENOTSUP) = .NFS3ERR_NOTSUPP ∧
    exceptionToNfsError (.systemError .ENFILE) = .NFS3ERR_SERVERFAULT ∧
    (∀ n : Nat, exceptionToNfsError (.systemError (.EOTHER n)) =
      .NFS3ERR_SERVERFAULT) ∧
    exceptionToNfsError .futureTimeout = .NFS3ERR_JUKEBOX ∧
    exceptionToNfsError .nonErrnoSystemError = .NFS3ERR_SERVERFAULT ∧
    exceptionToNfsError .otherException = .NFS3ERR_SERVERFAULT :=
  ⟨rfl, rfl, rfl, rfl, rfl, rfl, rfl, rfl, rfl, rfl, rfl, rfl, rfl, rfl,
    rfl, rfl, rfl, rfl, rfl, rfl, rfl, rfl, rfl, rfl, fun _ => rfl, rfl,
    rfl, rfl⟩

/-- An `sattr3` with every attribute absent. -/
def sattrNone : sattr3 := ⟨none, none, none, none, none, none⟩

/-- C3: for every CREATE request, EXCLUSIVE mode replies
`NFS3ERR_NOTSUPP` with an empty `wcc_data` and never invokes the
dispatcher; UNCHECKED mode where `dispatcher.create` fails with EEXIST
replies `NFS3_OK` with file handle, object attributes and both `wcc_data`
sides absent; every other create failure replies that error's `nfsstat3`
with an empty `wcc_data`. -/
theorem create_spec (p : Nfsd3ServerProcessor) (cur : Cursor)
    (args : CREATE3args) (h : cur.create3args = some args) :
    (∀ v, args.how = .EXCLUSIVE v →
      p.create cur = .ok (.success (.createBody
        (.resfail .NFS3ERR_NOTSUPP ⟨⟨none, none⟩⟩)), [])) ∧
    (∀ attr e, args.how = .UNCHECKED attr →
      p.dispatcher.create args.where_.dir.ino args.where_.name
        (attr.mode.getD (S_IFREG ||| 0o644)) = .error e →
      isEexist e = true →
      p.create cur = .ok (.success (.createBody
        (.resok .NFS3_OK ⟨none, none, ⟨none, none⟩⟩)),
        [.createCall args.where_.dir.ino args.where_.name
          (attr.mode.getD (S_IFREG ||| 0o644))])) ∧
    (∀ attr e, args.how = .UNCHECKED attr ∨ args.how = .GUARDED attr →
      p.dispatcher.create args.where_.dir.ino args.where_.name
        (attr.mode.getD (S_IFREG ||| 0o644)) = .error e →
      ¬(args.how.tag = .UNCHECKED ∧ isEexist e = true) →
      p.create cur = .ok (.success (.createBody
        (.resfail (exceptionToNfsError e) ⟨⟨none, none⟩⟩)),
        [.createCall args.where_.dir.ino args.where_.name
          (attr.mode.getD (S_IFREG ||| 0o644))])) := by
  obtain ⟨w, how⟩ := args
  refine ⟨?_, ?_, ?_⟩
  · intro v hv
    subst hv
    simp [Nfsd3ServerProcessor.create, h]
  · intro attr e hv he hex
    subst hv
    simp [Nfsd3ServerProcessor.create, h, he, createhow3.tag, hex]
  · rintro attr e (hv | hv) he hne
    · subst hv
      simp only [createhow3.tag, true_and] at hne
      simp [Nfsd3ServerProcessor.create, h, he, createhow3.tag, hne]
    · subst hv
      simp [Nfsd3ServerProcessor.create, h, he, createhow3.tag]

/-- A cursor holding an UNCHECKED CREATE request for "foo" in dir 1. -/
def curCreateEx : Cursor :=
  { emptyCursor with create3args := some ⟨⟨⟨1⟩, "foo"⟩, .UNCHECKED sattrNone⟩ }

/-- C3 witness: an UNCHECKED CREATE against a dispatcher failing with
EEXIST replies `NFS3_OK` with every optional field absent. -/
theorem create_spec_witness :
    pEexist.create curCreateEx = .ok (.success (.createBody
      (.resok .NFS3_OK ⟨none, none, ⟨none, none⟩⟩)),
      [.createCall 1 "foo" (S_IFREG ||| 0o644)]) :=
  (create_spec pEexist curCreateEx _ rfl).2.1 sattrNone
    (.systemError .EEXIST) rfl rfl rfl

/-- C7: every MKDIR request whose name is "." or ".." replies
`NFS3ERR_EXIST` without invoking the dispatcher; every other MKDIR
request with an absent mode attribute calls the dispatcher with mode
`S_IFDIR | 0751`. -/
theorem mkdir_spec (p : Nfsd3ServerProcessor) (cur : Cursor)
    (args : MKDIR3args) (h : cur.mkdir3args = some args) :
    (args.where_.name = "." ∨ args.where_.name = ".." →
      p.mkdir cur = .ok (.success (.mkdirBody
        (.resfail .NFS3ERR_EXIST ⟨⟨none, none⟩⟩)), [])) ∧
    (args.where_.name ≠ "." → args.where_.name ≠ ".." →
      args.attributes.mode = none →
      ∃ res, p.mkdir cur = .ok (.success (.mkdirBody res),
        [.mkdirCall args.where_.dir.ino args.where_.name
          (S_IFDIR ||| 0o751)])) := by
  constructor
  · intro hname
    simp [Nfsd3ServerProcessor.mkdir, h, hname]
  · intro h1 h2 hmode
    exact ⟨mkdirResult p.dispatcher args.where_.dir.ino args.where_.name
        (S_IFDIR ||| 0o751),
      by simp [Nfsd3ServerProcessor.mkdir, h, h1, h2, hmode]⟩

/-- C7 witness: MKDIR of "." replies `NFS3ERR_EXIST` with no dispatcher
call. -/
theorem mkdir_spec_witness :
    pOk.mkdir { emptyCursor with
        mkdir3args := some ⟨⟨⟨1⟩, "."⟩, sattrNone⟩ } =
      .ok (.success (.mkdirBody
        (.resfail .NFS3ERR_EXIST ⟨⟨none, none⟩⟩)), []) :=
  (mkdir_spec pOk _ _ rfl).1 (.inl rfl)

/-- C4: a LOOKUP of "." whose dispatcher calls succeed returns the
request's dir inode as file handle with object attributes from
`getattr(dir)`; a LOOKUP of ".." returns `getParent(dir)`'s inode with
object attributes from `getattr(parent)`; any other name not exceeding
NAME_MAX is resolved by `dispatcher.lookup(dir, name)`. -/
theorem lookup_spec (p : Nfsd3ServerProcessor) (cur : Cursor)
    (args : LOOKUP3args) (h : cur.lookup3args = some args) :
    (args.what.name = "." → ∀ st,
      p.dispatcher.getattr args.what.dir.ino = .ok st →
      p.lookup cur = .ok (.success (.lookupBody (.resok .NFS3_OK
        ⟨⟨args.what.dir.ino⟩, some (statToFattr3 st),
          some (statToFattr3 st)⟩)),
        [.getattrCall args.what.dir.ino,
          .getattrCall args.what.dir.ino])) ∧
    (args.what.name = ".." → ∀ par st,
      p.dispatcher.getParent args.what.dir.ino = .ok par →
      p.dispatcher.getattr par = .ok st →
      p.lookup cur = .ok (.success (.lookupBody (.resok .NFS3_OK
        ⟨⟨par⟩, some (statToFattr3 st),
          statToPostOpAttr (p.dispatcher.getattr args.what.dir.ino)⟩)),
        [.getattrCall args.what.dir.ino,
          .getParentCall args.what.dir.ino, .getattrCall par])) ∧
    (args.what.name ≠ "." → args.what.name ≠ ".." →
      args.what.name.length ≤ NAME_MAX → ∀ ino st,
      p.dispatcher.lookup args.what.dir.ino args.what.name =
        .ok (ino, st) →
      p.lookup cur = .ok (.success (.lookupBody (.resok .NFS3_OK
        ⟨⟨ino⟩, some (statToFattr3 st),
          statToPostOpAttr (p.dispatcher.getattr args.what.dir.ino)⟩)),
        [.getattrCall args.what.dir.ino,
          .lookupCall args.what.dir.ino args.what.name])) := by
  refine ⟨?_, ?_, ?_⟩
  · intro hn st hg
    have hd : ("." : String).length = 1 := rfl
    simp [Nfsd3ServerProcessor.lookup, h, hn, lookupBranch, hg, NAME_MAX,
      hd, statToPostOpAttr]
  · intro hn par st hgp hg
    have hdd : ((".." : String)).length = 2 := rfl
    simp [Nfsd3ServerProcessor.lookup, h, hn, lookupBranch, hgp, hg,
      NAME_MAX, hdd]
  · intro h1 h2 hlen ino st hlk
    have hlen' : ¬(args.what.name.length > NAME_MAX) := by omega
    simp [Nfsd3ServerProcessor.lookup, h, lookupBranch, h1, h2, hlen',
      hlk]

/-- C4 witness: LOOKUP of "." in dir 7 returns file handle 7 with the
attributes `getattr(7)` produced. -/
theorem lookup_spec_witness :
    pOk.lookup { emptyCursor with lookup3args := some ⟨⟨⟨7⟩, "."⟩⟩ } =
      .ok (.success (.lookupBody (.resok .NFS3_OK
        ⟨⟨7⟩, some (statToFattr3 statEx), some (statToFattr3 statEx)⟩)),
        [.getattrCall 7, .getattrCall 7]) :=
  (lookup_spec pOk _ _ rfl).1 rfl statEx rfl

/-- C5: a LOOKUP whose name exceeds NAME_MAX replies
`NFS3ERR_NAMETOOLONG`, with directory post-op attributes reflecting the
eager `getattr(dir)` outcome (absent on failure), and never invokes the
dispatcher's lookup operation: the only dispatcher call is the eager
`getattr(dir)`. -/
theorem lookup_nametoolong_spec (p : Nfsd3ServerProcessor) (cur : Cursor)
    (args : LOOKUP3args) (h : cur.lookup3args = some args)
    (hlen : args.what.name.length > NAME_MAX) :
    p.lookup cur = .ok (.success (.lookupBody
      (.resfail .NFS3ERR_NAMETOOLONG
        ⟨statToPostOpAttr (p.dispatcher.getattr args.what.dir.ino)⟩)),
      [.getattrCall args.what.dir.ino]) := by
  cases hg : p.dispatcher.getattr args.what.dir.ino with
  | error e =>
    simp [Nfsd3ServerProcessor.lookup, h, hlen, hg, statToPostOpAttr]
  | ok st =>
    simp [Nfsd3ServerProcessor.lookup, h, hlen, hg, statToPostOpAttr]

set_option maxRecDepth 10000 in
/-- C5 witness: a LOOKUP of a 256-character name in dir 7 replies
`NFS3ERR_NAMETOOLONG` carrying `getattr(7)`'s attributes, with no lookup
dispatcher call. -/
theorem lookup_nametoolong_witness :
    pOk.lookup { emptyCursor with
        lookup3args := some ⟨⟨⟨7⟩, longName⟩⟩ } =
      .ok (.success (.lookupBody (.resfail .NFS3ERR_NAMETOOLONG
        ⟨some (statToFattr3 statEx)⟩)), [.getattrCall 7]) :=
  lookup_nametoolong_spec pOk _ ⟨⟨⟨7⟩, longName⟩⟩ rfl (by decide)

/-- C6: every WRITE whose dispatcher write succeeds replies `NFS3_OK`
with count the written byte count narrowed to u32, committed always
`FILE_SYNC` (whatever stable mode was requested), verf 0, and `wcc_data`
sides present exactly when the dispatcher returned preStat/postStat; the
data passed to the dispatcher is the request data truncated to `count`
bytes. -/
theorem write_spec (p : Nfsd3ServerProcessor) (cur : Cursor)
    (args : WRITE3args) (wr : WriteRes) (h : cur.write3args = some args)
    (hc : args.count ≤ args.data.length)
    (hw : p.dispatcher.write args.file.ino (args.data.take args.count)
      args.offset = .ok wr) :
    p.write cur = .ok (.success (.writeBody (.resok .NFS3_OK
      ⟨⟨match wr.preStat with
          | some s => statToPreOpAttr s
          | none => none,
        match wr.postStat with
          | some s => some (statToFattr3 s)
          | none => none⟩,
        wr.written % 2 ^ 32, .FILE_SYNC, 0⟩)),
      [.writeCall args.file.ino (args.data.take args.count)
        args.offset]) := by
  simp [Nfsd3ServerProcessor.write, h, hc, hw, makeWriteVerf]

/-- C6 witness: a WRITE of count 2 with 3 data bytes passes only the
first 2 bytes to the dispatcher and replies `NFS3_OK`, committed
FILE_SYNC, verf 0, before absent, after present. -/
theorem write_spec_witness :
    pOk.write { emptyCursor with
        write3args := some ⟨⟨9⟩, 0, 2, .UNSTABLE, [10, 20, 30]⟩ } =
      .ok (.success (.writeBody (.resok .NFS3_OK
        ⟨⟨none, some (statToFattr3 statEx)⟩, 2, .FILE_SYNC, 0⟩)),
        [.writeCall 9 [10, 20] 0]) :=
  write_spec pOk _ ⟨⟨9⟩, 0, 2, .UNSTABLE, [10, 20, 30]⟩
    ⟨2, none, some statEx⟩ rfl (by decide) rfl

/-- C8: every FSSTAT whose statfs call succeeds replies with
`tbytes = f_blocks * f_bsize`, `fbytes = f_bfree * f_bsize`,
`abytes = f_bavail * f_bavail` (sic), `tfiles = f_files`,
`ffiles = f_ffree`, `afiles = f_ffree`, `invarsec = 0` — stated under
no-overflow bounds since the counters are 64-bit. -/
theorem fsstat_spec (p : Nfsd3ServerProcessor) (cur : Cursor)
    (args : FSSTAT3args) (s : Statfs) (h : cur.fsstat3args = some args)
    (hs : p.dispatcher.statfs args.fsroot.ino = .ok s)
    (h1 : s.f_blocks * s.f_bsize < 2 ^ 64)
    (h2 : s.f_bfree * s.f_bsize < 2 ^ 64)
    (h3 : s.f_bavail * s.f_bavail < 2 ^ 64) :
    p.fsstat cur = .ok (.success (.fsstatBody (.resok .NFS3_OK
      ⟨statToPostOpAttr (p.dispatcher.getattr args.fsroot.ino),
        s.f_blocks * s.f_bsize, s.f_bfree * s.f_bsize,
        s.f_bavail * s.f_bavail, s.f_files, s.f_ffree, s.f_ffree, 0⟩)),
      [.statfsCall args.fsroot.ino, .getattrCall args.fsroot.ino]) := by
  have h1' : s.f_blocks * s.f_bsize % 18446744073709551616 =
      s.f_blocks * s.f_bsize := Nat.mod_eq_of_lt h1
  have h2' : s.f_bfree * s.f_bsize % 18446744073709551616 =
      s.f_bfree * s.f_bsize := Nat.mod_eq_of_lt h2
  have h3' : s.f_bavail * s.f_bavail % 18446744073709551616 =
      s.f_bavail * s.f_bavail := Nat.mod_eq_of_lt h3
  simp [Nfsd3ServerProcessor.fsstat, h, hs, h1', h2', h3']

/-- C8 witness: the spec's scenario 6 statfs snapshot
(f_blocks=1000, f_bsize=4096, f_bfree=500, f_bavail=400, f_files=256,
f_ffree=100) yields tbytes=4096000, fbytes=2048000, abytes=160000,
tfiles=256, ffiles=100, afiles=100, invarsec=0. -/
theorem fsstat_spec_witness :
    pOk.fsstat { emptyCursor with fsstat3args := some ⟨⟨7⟩⟩ } =
      .ok (.success (.fsstatBody (.resok .NFS3_OK
        ⟨some (statToFattr3 statEx), 4096000, 2048000, 160000,
          256, 100, 100, 0⟩)),
        [.statfsCall 7, .getattrCall 7]) :=
  fsstat_spec pOk _ ⟨⟨7⟩⟩ statfsEx rfl rfl (by decide) (by decide)
    (by decide)

/-- C10: every FSSTAT where statfs succeeds but `getattr(fsroot)` fails
still replies `NFS3_OK`, with the object attributes absent and the
counters computed from the statfs result. -/
theorem fsstat_attr_failure_spec (p : Nfsd3ServerProcessor)
    (cur : Cursor) (args : FSSTAT3args) (s : Statfs) (e : NfsError)
    (h : cur.fsstat3args = some args)
    (hs : p.dispatcher.statfs args.fsroot.ino = .ok s)
    (hg : p.dispatcher.getattr args.fsroot.ino = .error e) :
    p.fsstat cur = .ok (.success (.fsstatBody (.resok .NFS3_OK
      ⟨none, (s.f_blocks * s.f_bsize) % 2 ^ 64,
        (s.f_bfree * s.f_bsize) % 2 ^ 64,
        (s.f_bavail * s.f_bavail) % 2 ^ 64,
        s.f_files, s.f_ffree, s.f_ffree, 0⟩)),
      [.statfsCall args.fsroot.ino, .getattrCall args.fsroot.ino]) := by
  simp [Nfsd3ServerProcessor.fsstat, h, hs, hg, statToPostOpAttr]

/-- C10 witness: FSSTAT against a dispatcher whose getattr fails with
ENOENT still replies `NFS3_OK` with absent attributes and the statfs
counters. -/
theorem fsstat_attr_failure_witness :
    pEexist.fsstat { emptyCursor with fsstat3args := some ⟨⟨7⟩⟩ } =
      .ok (.success (.fsstatBody (.resok .NFS3_OK
        ⟨none, 4096000, 2048000, 160000, 256, 100, 100, 0⟩)),
        [.statfsCall 7, .getattrCall 7]) :=
  fsstat_attr_failure_spec pEexist _ ⟨⟨7⟩⟩ statfsEx
    (.systemError .ENOENT) rfl rfl rfl

/-- C9: a request whose argument bytes do not deserialize into the
selected procedure's argument structure still gets a serialized reply
with status `NFS3ERR_SERVERFAULT` — the deserialization throw never
propagates out of `handleRequest` (which is total). The second conjunct
shows a GETATTR whose arguments fail to parse makes `dispatchRpc` throw. -/
theorem deser_failure_spec :
    (∀ (p : Nfsd3ServerProcessor) (cur : Cursor) (prog ver proc : Nat),
      p.dispatchRpc cur prog ver proc = .error () →
      handleRequest p cur prog ver proc =
        (.success (.genericErrorBody .NFS3ERR_SERVERFAULT), [])) ∧
    (∀ (p : Nfsd3ServerProcessor) (cur : Cursor),
      cur.getattr3args = none →
      p.dispatchRpc cur 100003 3 1 = .error ()) := by
  constructor
  · intro p cur prog ver proc hd
    simp [handleRequest, hd]
  · intro p cur hc
    unfold Nfsd3ServerProcessor.dispatchRpc
    rw [if_neg (by decide), if_neg (by decide), dif_pos (by decide)]
    show Nfsd3ServerProcessor.getattr p cur = .error ()
    simp [Nfsd3ServerProcessor.getattr, hc]

/-- C9 witness: a GETATTR call whose arguments fail to deserialize is
answered with a `NFS3ERR_SERVERFAULT` reply by the request wrapper. -/
theorem deser_failure_witness :
    handleRequest pOk emptyCursor 100003 3 1 =
      (.success (.genericErrorBody .NFS3ERR_SERVERFAULT), []) :=
  deser_failure_spec.1 pOk emptyCursor 100003 3 1
    (deser_failure_spec.2 pOk emptyCursor rfl)

end Nfsd3
